import Mathlib

/-!
Formal model of the two UI form components of this repository:
the order-entry form (src/unnamed/part_000, class OrderForm) and the
KYC address form (src/src/containers/Confirm/Address/index.tsx, class
AddressComponent).  JavaScript numbers are modelled by `JsNum`
(a rational, an infinity, or NaN); JavaScript string-to-number coercion
by `jsNumber`; the JS operators by `jsMul`, `jsDiv`, `jsLe` and the
short-circuiting `x \x7b\x7d y`-style fallback `a || b` by `jsOr`.
Machine floating point is idealised by rationals: none of the verified
properties depends on rounding of finite values, only on the
zero / NaN / infinity case distinctions that the code branches on.
-/

/-! ## JavaScript number model -/

/-- A JavaScript number: NaN, a signed infinity (`pos = true` is plus
infinity), or a finite value modelled as a rational.  The IEEE negative
zero is identified with zero; a remark is made wherever that matters. -/
inductive JsNum where
  | nan : JsNum
  | inf (pos : Bool) : JsNum
  | num (q : ℚ) : JsNum
deriving DecidableEq, Repr

/-- JavaScript truthiness of a number: NaN and 0 are falsy, everything
else (infinities included) is truthy. -/
def jsTruthy : JsNum → Bool
  | JsNum.nan => false
  | JsNum.inf _ => true
  | JsNum.num q => decide (q ≠ 0)

/-- The JavaScript expression `a || b` on numbers: `a` when `a` is
truthy, otherwise `b`. -/
def jsOr (a b : JsNum) : JsNum :=
  if jsTruthy a then a else b

/-- JavaScript multiplication. -/
def jsMul : JsNum → JsNum → JsNum
  | JsNum.nan, _ => JsNum.nan
  | _, JsNum.nan => JsNum.nan
  | JsNum.num a, JsNum.num b => JsNum.num (a * b)
  | JsNum.inf s, JsNum.num b =>
      if b = 0 then JsNum.nan else JsNum.inf (s == decide (0 < b))
  | JsNum.num a, JsNum.inf s =>
      if a = 0 then JsNum.nan else JsNum.inf (s == decide (0 < a))
  | JsNum.inf s, JsNum.inf t => JsNum.inf (s == t)

/-- JavaScript division.  Division of a nonzero finite value by zero
gives an infinity whose sign is that of the dividend (the divisor zero
is treated as +0, since the rationals have no negative zero). -/
def jsDiv : JsNum → JsNum → JsNum
  | JsNum.nan, _ => JsNum.nan
  | _, JsNum.nan => JsNum.nan
  | JsNum.num a, JsNum.num b =>
      if b = 0 then
        (if a = 0 then JsNum.nan else JsNum.inf (decide (0 < a)))
      else JsNum.num (a / b)
  | JsNum.inf s, JsNum.num b => JsNum.inf (s == decide (0 ≤ b))
  | JsNum.num _, JsNum.inf _ => JsNum.num 0
  | JsNum.inf _, JsNum.inf _ => JsNum.nan

/-- JavaScript comparison `a <= b`: false whenever either side is NaN. -/
def jsLe : JsNum → JsNum → Bool
  | JsNum.nan, _ => false
  | _, JsNum.nan => false
  | JsNum.num a, JsNum.num b => decide (a ≤ b)
  | JsNum.inf s, JsNum.num _ => !s
  | JsNum.num _, JsNum.inf s => s
  | JsNum.inf s, JsNum.inf t => !s || t

/-- The ASCII whitespace characters that JavaScript `Number` trims. -/
def jsWhitespace (c : Char) : Bool :=
  c = ' ' || c = '\t' || c = '\n' || c = '\r' || c = '\x0b' || c = '\x0c'

/-- Numeric value of a list of decimal digits read left to right. -/
def digitsVal (cs : List Char) : ℕ :=
  cs.foldl (fun acc c => acc * 10 + (c.toNat - '0'.toNat)) 0

/-- Value of a fractional digit string: `digitsVal cs / 10 ^ cs.length`. -/
def fracVal (cs : List Char) : ℚ :=
  (digitsVal cs : ℚ) / (10 ^ cs.length : ℚ)

/-- Parses an unsigned decimal literal `digits [ . digits ]` covering the
whole character list, with at least one digit overall (so `1.`, `.5` and
`7` parse, while the empty list, `.` and `1-2` do not). -/
def parseUnsigned (cs : List Char) : Option ℚ :=
  let intPart := cs.takeWhile Char.isDigit
  let rest := cs.dropWhile Char.isDigit
  match rest with
  | [] => if intPart.isEmpty then none else some ((digitsVal intPart : ℕ) : ℚ)
  | '.' :: frac =>
      if frac.all Char.isDigit && !(intPart.isEmpty && frac.isEmpty) then
        some ((digitsVal intPart : ℚ) + fracVal frac)
      else none
  | _ => none

/-- JavaScript `Number(s)` on the strings this code can produce: the
string is trimmed, the empty string is 0, `Infinity` with an optional
sign is an infinity, a signed decimal literal is its value, anything
else is NaN.  Exponent and hexadecimal forms are not modelled: the form
states reachable here contain only digits, dots and dashes. -/
def jsNumber (s : String) : JsNum :=
  let cs := ((s.toList.dropWhile jsWhitespace).reverse.dropWhile jsWhitespace).reverse
  match cs with
  | [] => JsNum.num 0
  | c :: cs0 =>
      let sign : Bool := c ≠ '-'
      let body : List Char := if c = '-' || c = '+' then cs0 else c :: cs0
      if body = "Infinity".toList then JsNum.inf sign
      else
        match parseUnsigned body with
        | some q => JsNum.num (if sign then q else -q)
        | none => JsNum.nan

/-- Truthiness of an optional-number prop (`undefined`, 0 falsy). -/
def optTruthy : Option ℚ → Bool
  | none => false
  | some q => decide (q ≠ 0)

/-- The JavaScript expression `a || d` for an optional number `a` and a
finite default `d`. -/
def optNumOr (a : Option ℚ) (d : ℚ) : ℚ :=
  match a with
  | some q => if q = 0 then d else q
  | none => d

/-! ## KYC address form (src/src/containers/Confirm/Address/index.tsx) -/

/-- An uploaded file; only its identity matters to this code (the name
is displayed, the object is appended to the request). -/
structure FileM where
  name : String
deriving DecidableEq, Repr

/-- The local state of `AddressComponent` (interface `State`). -/
structure AddressState where
  country : String
  address : String
  addressFocused : Bool
  city : String
  cityFocused : Bool
  postcode : String
  postcodeFocused : Bool
  fileScan : List FileM
deriving DecidableEq, Repr

/-- The initial state of `AddressComponent` (its `state` field
initialiser, lines 44-53). -/
def addressInitialState : AddressState :=
  { country := ""
    address := ""
    addressFocused := false
    city := ""
    cityFocused := false
    postcode := ""
    postcodeFocused := false
    fileScan := [] }

/-- An ASCII letter, the JavaScript character class `[a-zA-Z]`. -/
def isAsciiLetter (c : Char) : Bool :=
  ('a' ≤ c && c ≤ 'z') || ('A' ≤ c && c ≤ 'Z')

/-- A character of the class `[a-zA-Z0-9,.;/\s]` used by the
residential-address regex. -/
def isAddressChar (c : Char) : Bool :=
  isAsciiLetter c || c.isDigit || c = ',' || c = '.' || c = ';' || c = '/' ||
    jsWhitespace c

/-- Match of `^[a-zA-Z0-9,.;/\s]+$`: nonempty, all characters in the
class.  Anchors are read as whole-string match. -/
def validAddress (s : String) : Bool :=
  !s.isEmpty && s.toList.all isAddressChar

/-- Match of `^[a-zA-Z]+$`. -/
def validCity (s : String) : Bool :=
  !s.isEmpty && s.toList.all isAsciiLetter

/-- Match of `^[0-9]\x7b1,12\x7d$`: one to twelve decimal digits. -/
def validPostcode (s : String) : Bool :=
  decide (1 ≤ s.length) && decide (s.length ≤ 12) && s.toList.all Char.isDigit

/-- Field validation `AddressComponent.handleValidateInput`
(lines 225-242): dispatch on the field name, `true` for unknown
fields (the `default` case). -/
def handleValidateInput (field value : String) : Bool :=
  if field = "address" then validAddress value
  else if field = "city" then validCity value
  else if field = "postcode" then validPostcode value
  else true

/-- Submit-button guard `AddressComponent.handleCheckButtonDisabled`
(lines 244-264).  `!country` is JS string falsiness (empty string) and
`!fileScan.length` is emptiness of the list. -/
def handleCheckButtonDisabled (st : AddressState) : Bool :=
  !(handleValidateInput "address" st.address) ||
  !(handleValidateInput "city" st.city) ||
  !(handleValidateInput "postcode" st.postcode) ||
  (st.country == "") ||
  st.fileScan.isEmpty

/-- The constant `maxDocsCount` of `handleUploadScan` (line 213). -/
def maxDocsCount : Nat := 1

/-- Scan-upload handler `AddressComponent.handleUploadScan`
(lines 211-223): keep the first `maxDocsCount` files when more were
selected, and store them under `fileScan` when the id says so
(the `switch` has only that case; `default` changes nothing). -/
def handleUploadScan (allFiles : List FileM) (id0 : String) (st : AddressState) :
    AddressState :=
  let additionalFileList :=
    if maxDocsCount < allFiles.length then allFiles.take maxDocsCount else allFiles
  if id0 = "fileScan" then { st with fileScan := additionalFileList } else st

/-- Text-field change handler `AddressComponent.handleChange`
(lines 174-179): the computed-key `setState` writes the given string
field.  The render only ever invokes it with the keys `address`,
`city` and `postcode`. -/
def handleChange (value key : String) (st : AddressState) : AddressState :=
  if key = "address" then { st with address := value }
  else if key = "city" then { st with city := value }
  else if key = "postcode" then { st with postcode := value }
  else st

/-- Focus-toggle handler `AddressComponent.handleFieldFocus`
(lines 181-203). -/
def handleFieldFocus (field : String) (st : AddressState) : AddressState :=
  if field = "address" then { st with addressFocused := !st.addressFocused }
  else if field = "city" then { st with cityFocused := !st.cityFocused }
  else if field = "postcode" then { st with postcodeFocused := !st.postcodeFocused }
  else st

/-- Country selection `AddressComponent.selectCountry` (lines 205-209):
the external `countries.getAlpha2Code` lookup is abstracted by letting
the event carry the resulting code string. -/
def selectCountry (code : String) (st : AddressState) : AddressState :=
  { st with country := code }

/-- A value appended to the `FormData` request: a file, a string, or
the stringified `undefined` that `FormData.append` would coerce. -/
inductive FdVal where
  | file (f : FileM) : FdVal
  | str (s : String) : FdVal
  | undef : FdVal
deriving DecidableEq, Repr

/-- The `FormData` request built by `AddressComponent.sendAddress`
(lines 266-283): the five `append` calls in source order. -/
def sendAddressRequest (st : AddressState) : List (String × FdVal) :=
  [("upload[]", match st.fileScan.head? with
                | some f => FdVal.file f
                | none => FdVal.undef),
   ("address", FdVal.str st.address),
   ("country", FdVal.str st.country),
   ("city", FdVal.str st.city),
   ("postcode", FdVal.str st.postcode)]

/-- Effect of one invocation of `AddressComponent.sendAddress`: the list
of `sendAddresses` dispatches it performs, in order (the body is
straight-line and dispatches exactly one request). -/
def sendAddress (st : AddressState) : List (List (String × FdVal)) :=
  [sendAddressRequest st]

/-- The state-changing operations of `AddressComponent` as wired in its
render: the three text-field change handlers, the focus handlers, the
country dropdown, the file upload (wired with id `fileScan`), and the
submit button (which does not change local state). -/
inductive AddrEvent where
  | changeAddress (v : String) : AddrEvent
  | changeCity (v : String) : AddrEvent
  | changePostcode (v : String) : AddrEvent
  | focusField (f : String) : AddrEvent
  | pickCountry (code : String) : AddrEvent
  | uploadScan (files : List FileM) : AddrEvent
  | submit : AddrEvent

/-- One step of the `AddressComponent` state machine. -/
def addrStep : AddrEvent → AddressState → AddressState
  | AddrEvent.changeAddress v, st => handleChange v "address" st
  | AddrEvent.changeCity v, st => handleChange v "city" st
  | AddrEvent.changePostcode v, st => handleChange v "postcode" st
  | AddrEvent.focusField f, st => handleFieldFocus f st
  | AddrEvent.pickCountry code, st => selectCountry code st
  | AddrEvent.uploadScan files, st => handleUploadScan files "fileScan" st
  | AddrEvent.submit, st => st

/-- States of `AddressComponent` reachable from the initial state by
its own operations. -/
inductive AddrReachable : AddressState → Prop where
  | init : AddrReachable addressInitialState
  | step (st : AddressState) (ev : AddrEvent) :
      AddrReachable st → AddrReachable (addrStep ev st)

/-! ## Order form (src/unnamed/part_000, class OrderForm) -/

/-- The `FormType` of the order form: `buy` or `sell`. -/
inductive FormType where
  | buy : FormType
  | sell : FormType
deriving DecidableEq, Repr

/-- The props of `OrderForm` that its logic reads.  Labels, styling and
callbacks are omitted; `disabled` collapses `undefined` and `false`
(both falsy); `available` keeps `undefined` as `none`. -/
structure OrderFormProps where
  priceMarket : ℚ
  priceLimit : Option ℚ
  type : FormType
  available : Option ℚ
  currentMarketAskPrecision : Nat
  currentMarketBidPrecision : Nat
  disabled : Bool
deriving DecidableEq, Repr

/-- The local state of `OrderForm` (interface `OrderFormState`,
lines 112-121).  `orderType` is kept as a string (the React-node case
never carries a value other than the dropdown labels). -/
structure OrderFormState where
  orderType : String
  amount : String
  price : String
  priceMarket : ℚ
  currentMarketAskPrecision : Nat
  currentMarketBidPrecision : Nat
  amountFocused : Bool
  priceFocused : Bool
deriving DecidableEq, Repr

/-- Modelled from the spec: the helper `getTotalPrice` is imported from
`helpers` and its source is not part of this repository snapshot.  The
spec describes it as computing, over the "ordered sequence of
(price, volume) pairs", "a volume-weighted total for a given amount":
proposals are consumed in order, each contributing its price times the
volume taken from it, until the amount is filled; a book too shallow
contributes only what it holds. -/
def weightedTotal : ℚ → List (ℚ × ℚ) → ℚ
  | _, [] => 0
  | remaining, (p, v) :: rest =>
      if remaining ≤ v then p * remaining
      else p * v + weightedTotal (remaining - v) rest

/-- Modelled from the spec: `getTotalPrice(amount, proposals)` parses the
amount string as a JS number and returns the volume-weighted total; a
non-finite amount propagates. -/
def getTotalPrice (amount : String) (proposals : List (ℚ × ℚ)) : JsNum :=
  match jsNumber amount with
  | JsNum.num a => JsNum.num (weightedTotal a proposals)
  | x => x

/-- Truncation of a rational toward zero at `p` decimal places. -/
def ratTruncTo (q : ℚ) (p : Nat) : ℚ :=
  let scaled : ℚ := q * (10 ^ p : ℚ)
  ((scaled.num.tdiv (scaled.den : ℤ) : ℤ) : ℚ) / (10 ^ p : ℚ)

/-- Modelled from the spec: `Decimal.format(value, precision)` is
imported from `components` and its source is not part of this
repository snapshot.  The spec says the displayed value is "clamped to
a display precision": the value is truncated to the given number of
decimal places.  Non-finite values display as 0. -/
def decimalFormat (x : JsNum) (p : Nat) : JsNum :=
  match x with
  | JsNum.num q => JsNum.num (ratTruncTo q p)
  | _ => JsNum.num 0

/-- The render-scope binding `safeAmount = Number(amount) || 0`
(line 211). -/
def safeAmountOf (amount : String) : JsNum :=
  jsOr (jsNumber amount) (JsNum.num 0)

/-- The render-scope binding
`safePrice = totalPrice / Number(amount) || priceMarket` (line 213),
parametrised by the already computed `totalPrice`. -/
def safePriceCalc (totalPrice : JsNum) (amount : String) (priceMarket : ℚ) : JsNum :=
  jsOr (jsDiv totalPrice (jsNumber amount)) (JsNum.num priceMarket)

/-- The render-scope binding `total` (lines 215-216): the proposal total
for a Market order, `safeAmount * (Number(price) || 0)` for any other
order type. -/
def renderTotal (st : OrderFormState) (proposals : List (ℚ × ℚ)) : JsNum :=
  if st.orderType = "Market" then getTotalPrice st.amount proposals
  else jsMul (safeAmountOf st.amount) (jsOr (jsNumber st.price) (JsNum.num 0))

/-- The total as displayed (line 274):
`Decimal.format(total, currentMarketBidPrecision)`. -/
def displayedTotal (st : OrderFormState) (proposals : List (ℚ × ℚ)) : JsNum :=
  decimalFormat (renderTotal st proposals) st.currentMarketBidPrecision

/-- The module-level guard `checkButtonIsDisabled` (lines 127-132). -/
def checkButtonIsDisabled (safeAmount safePrice : JsNum) (price : String)
    (props : OrderFormProps) (st : OrderFormState) : Bool :=
  let invalidAmount := jsLe safeAmount (JsNum.num 0)
  let invalidLimitPrice := jsLe (jsNumber price) (JsNum.num 0) && st.orderType == "Limit"
  let invalidMarketPrice := jsLe safePrice (JsNum.num 0) && st.orderType == "Market"
  props.disabled || !(optTruthy props.available) || invalidAmount ||
    invalidLimitPrice || invalidMarketPrice

/-- The `disabled` value handed to the submit button in render
(line 286), with `safeAmount` and `safePrice` computed as at
lines 211-213. -/
def renderButtonDisabled (props : OrderFormProps) (st : OrderFormState)
    (proposals : List (ℚ × ℚ)) : Bool :=
  checkButtonIsDisabled (safeAmountOf st.amount)
    (safePriceCalc (getTotalPrice st.amount proposals) st.amount st.priceMarket)
    st.price props st

/-- Splits a character list at every dot; the result has one segment
more than there are dots. -/
def splitDots : List Char → List (List Char)
  | [] => [[]]
  | c :: cs =>
      match splitDots cs, decide (c = '.') with
      | r, true => [] :: r
      | [], false => [[c]]
      | h :: t, false => (c :: h) :: t

/-- A character of the class `[\d-]`: a decimal digit or a dash. -/
def isDigitOrDash (c : Char) : Bool :=
  c.isDigit || c = '-'

/-- Decidable match of the amount regex of `handleAmountChange`
(line 319), `^(?:[\d-]*\.?[\d-]\x7b0,p\x7d|[\d-]*\.[\d-])$` with `p` the
ask precision: splitting at dots, a dot-free string of digits and
dashes always matches (first branch with an empty tail); with one dot,
both sides must be digits and dashes and the tail must have at most
`p` characters (first branch) or exactly one (second branch); two or
more dots never match. -/
def matchesAmountCondition (p : Nat) (s : String) : Bool :=
  match splitDots s.toList with
  | [a] => a.all isDigitOrDash
  | [a, b] =>
      a.all isDigitOrDash && b.all isDigitOrDash &&
      (decide (b.length ≤ p) || b.length == 1)
  | _ => false

/-- Amount-change handler `OrderForm.handleAmountChange`
(lines 317-325), parametrised by the helper `cleanPositiveFloatInput`
(imported from `helpers`, not part of this snapshot): the handler sets
the amount to the cleaned value exactly when the cleaned value matches
the precision regex, and otherwise leaves the state alone. -/
def handleAmountChange (clean : String → String) (value : String)
    (st : OrderFormState) : OrderFormState :=
  let convertedValue := clean value
  if matchesAmountCondition st.currentMarketAskPrecision convertedValue then
    { st with amount := convertedValue }
  else st

/-- The price field of a submitted order: the code puts the numeric
`priceMarket` state there for a Market order and the price string
otherwise. -/
inductive OrderPrice where
  | str (s : String) : OrderPrice
  | num (q : ℚ) : OrderPrice
deriving DecidableEq, Repr

/-- Whether an order price value is a string. -/
def OrderPrice.isString : OrderPrice → Bool
  | OrderPrice.str _ => true
  | OrderPrice.num _ => false

/-- The order object built by `OrderForm.handleSubmit` (lines 331-337). -/
structure OrderProps where
  type : FormType
  orderType : String
  amount : String
  price : OrderPrice
  available : ℚ
deriving DecidableEq, Repr

/-- Construction of the submitted order from props and state
(lines 331-337): `price` is `priceMarket` (a number) for Market orders
and the `price` string otherwise; `available` is `available || 0`. -/
def mkOrder (props : OrderFormProps) (st : OrderFormState) : OrderProps :=
  { type := props.type
    orderType := st.orderType
    amount := st.amount
    price := if st.orderType = "Market" then OrderPrice.num st.priceMarket
             else OrderPrice.str st.price
    available := optNumOr props.available 0 }

/-- Submit handler `OrderForm.handleSubmit` (lines 327-344): returns the
new local state (the `setState` merge clearing `amount` and `price`)
together with the list of `onSubmit` invocations it performs. -/
def handleSubmit (props : OrderFormProps) (st : OrderFormState) :
    OrderFormState × List OrderProps :=
  ({ st with amount := "", price := "" }, [mkOrder props st])

/-! ## Helper lemmas -/

/-- Dispatch of `handleValidateInput` on the literal field `address`. -/
theorem handleValidateInput_address (v : String) :
    handleValidateInput "address" v = validAddress v := rfl

/-- Dispatch of `handleValidateInput` on the literal field `city`. -/
theorem handleValidateInput_city (v : String) :
    handleValidateInput "city" v = validCity v := by
  simp [handleValidateInput]

/-- Dispatch of `handleValidateInput` on the literal field `postcode`. -/
theorem handleValidateInput_postcode (v : String) :
    handleValidateInput "postcode" v = validPostcode v := by
  simp [handleValidateInput]

/-- Upload with the id the render wires updates `fileScan` with the
first `maxDocsCount` files. -/
theorem handleUploadScan_fileScan (files : List FileM) (st : AddressState) :
    (handleUploadScan files "fileScan" st).fileScan =
      (if maxDocsCount < files.length then files.take maxDocsCount else files) := by
  simp [handleUploadScan]

/-- The fallback `x || 0` is the identity on finite values. -/
theorem jsOr_num_zero (a : ℚ) : jsOr (JsNum.num a) (JsNum.num 0) = JsNum.num a := by
  by_cases h : a = 0 <;> simp [jsOr, jsTruthy, h]

/-! ## Claim theorems -/

/-- C2: the KYC address form submit button is enabled (the guard
returns false) exactly when the address matches its character-class
regex, the city matches its regex, the postcode is one to twelve
digits, the country is nonempty and a scan file has been chosen; if
any condition fails, `handleCheckButtonDisabled` returns true and the
button is disabled. -/
theorem addressSubmitEnabled_iff (st : AddressState) :
    handleCheckButtonDisabled st = false ↔
      (validAddress st.address = true ∧ validCity st.city = true ∧
       validPostcode st.postcode = true ∧ st.country ≠ "" ∧ st.fileScan ≠ []) := by
  simp [handleCheckButtonDisabled, handleValidateInput_address,
    handleValidateInput_city, handleValidateInput_postcode,
    List.isEmpty_iff, and_assoc]

/-- C3: for every input string, the amount-change handler sets the
amount state to the cleaned value exactly when the cleaned value
matches the precision-limited decimal regex, and leaves the whole
state unmodified otherwise; this holds for every cleaning function. -/
theorem amountChange_guarded (clean : String → String) (value : String)
    (st : OrderFormState) :
    (matchesAmountCondition st.currentMarketAskPrecision (clean value) = true →
      handleAmountChange clean value st = { st with amount := clean value }) ∧
    (matchesAmountCondition st.currentMarketAskPrecision (clean value) = false →
      handleAmountChange clean value st = st) := by
  unfold handleAmountChange
  constructor <;> intro h <;> simp [h]

/-- Witness for C3 at concrete inputs: with the identity cleaning
function and ask precision 6, the input `12` is accepted and stored,
while with precision 2 the input `1.234` is rejected and the state is
unchanged. -/
theorem amountChange_guarded_witness :
    (handleAmountChange (fun s => s) "12"
      { orderType := "Market", amount := "", price := "", priceMarket := 3,
        currentMarketAskPrecision := 6, currentMarketBidPrecision := 6,
        amountFocused := false, priceFocused := false }).amount = "12" ∧
    handleAmountChange (fun s => s) "1.234"
      { orderType := "Market", amount := "", price := "", priceMarket := 3,
        currentMarketAskPrecision := 2, currentMarketBidPrecision := 6,
        amountFocused := false, priceFocused := false } =
      { orderType := "Market", amount := "", price := "", priceMarket := 3,
        currentMarketAskPrecision := 2, currentMarketBidPrecision := 6,
        amountFocused := false, priceFocused := false } := by
  constructor
  · rw [(amountChange_guarded (fun s => s) "12"
      { orderType := "Market", amount := "", price := "", priceMarket := 3,
        currentMarketAskPrecision := 6, currentMarketBidPrecision := 6,
        amountFocused := false, priceFocused := false }).1 (by decide)]
  · exact (amountChange_guarded (fun s => s) "1.234"
      { orderType := "Market", amount := "", price := "", priceMarket := 3,
        currentMarketAskPrecision := 2, currentMarketBidPrecision := 6,
        amountFocused := false, priceFocused := false }).2 (by decide)

/-- C4: in any order-form state whose amount string is `0`, the parsed
safe amount is 0, so `checkButtonIsDisabled` as invoked by render
returns true and the submit button is disabled, whatever the props,
price and proposals are. -/
theorem zeroAmount_disables (props : OrderFormProps) (st : OrderFormState)
    (proposals : List (ℚ × ℚ)) (h : st.amount = "0") :
    renderButtonDisabled props st proposals = true := by
  have hle : jsLe (safeAmountOf "0") (JsNum.num 0) = true := by decide
  unfold renderButtonDisabled checkButtonIsDisabled
  rw [h]
  simp [hle]

/-- Witness for C4 at a concrete state with amount `0`. -/
theorem zeroAmount_disables_witness :
    renderButtonDisabled
      { priceMarket := 3, priceLimit := none, type := FormType.buy,
        available := some 10, currentMarketAskPrecision := 6,
        currentMarketBidPrecision := 6, disabled := false }
      { orderType := "Market", amount := "0", price := "", priceMarket := 3,
        currentMarketAskPrecision := 6, currentMarketBidPrecision := 6,
        amountFocused := false, priceFocused := false }
      [(3, 5)] = true :=
  zeroAmount_disables _ _ _ rfl

/-- C9: whenever the `available` prop is `undefined` or 0, the guard
`checkButtonIsDisabled` returns true regardless of every other input. -/
theorem unavailable_disables (sa sp : JsNum) (price : String)
    (props : OrderFormProps) (st : OrderFormState)
    (h : props.available = none ∨ props.available = some 0) :
    checkButtonIsDisabled sa sp price props st = true := by
  have havail : optTruthy props.available = false := by
    rcases h with h | h <;> simp [h, optTruthy]
  unfold checkButtonIsDisabled
  simp [havail]

/-- Witness for C9: a concrete call with zero available balance and an
otherwise valid order is disabled. -/
theorem unavailable_disables_witness :
    checkButtonIsDisabled (JsNum.num 5) (JsNum.num 3) "5"
      { priceMarket := 3, priceLimit := none, type := FormType.sell,
        available := some 0, currentMarketAskPrecision := 6,
        currentMarketBidPrecision := 6, disabled := false }
      { orderType := "Market", amount := "5", price := "5", priceMarket := 3,
        currentMarketAskPrecision := 6, currentMarketBidPrecision := 6,
        amountFocused := false, priceFocused := false } = true :=
  unavailable_disables _ _ _ _ _ (Or.inr rfl)

/-- C6: upon submission the address form dispatches `sendAddresses`
exactly once, with a request holding exactly the five entries
`upload[]` (the first file of `fileScan`), `address`, `country`,
`city` and `postcode`, each taken unmodified from the form state. -/
theorem sendAddress_payload (st : AddressState) (h : st.fileScan ≠ []) :
    sendAddress st =
      [[("upload[]", FdVal.file (st.fileScan.head h)),
        ("address", FdVal.str st.address),
        ("country", FdVal.str st.country),
        ("city", FdVal.str st.city),
        ("postcode", FdVal.str st.postcode)]] := by
  unfold sendAddress sendAddressRequest
  rw [List.head?_eq_head h]

/-- Witness for C6 at a concrete filled-in state. -/
theorem sendAddress_payload_witness :
    sendAddress
      { country := "DE", address := "Baker Street 21", addressFocused := false,
        city := "Berlin", cityFocused := false, postcode := "10115",
        postcodeFocused := false, fileScan := [{ name := "scan.png" }] } =
      [[("upload[]", FdVal.file { name := "scan.png" }),
        ("address", FdVal.str "Baker Street 21"),
        ("country", FdVal.str "DE"),
        ("city", FdVal.str "Berlin"),
        ("postcode", FdVal.str "10115")]] :=
  sendAddress_payload _ (by simp)

/-- C7: each run of the order-form submit handler emits exactly one
order, built from the current props and state, and the new state has
amount and price cleared while the order type, market price, the two
precisions and both focus flags keep their previous values. -/
theorem handleSubmit_frame (props : OrderFormProps) (st : OrderFormState) :
    (handleSubmit props st).2 = [mkOrder props st] ∧
    (handleSubmit props st).1.amount = "" ∧
    (handleSubmit props st).1.price = "" ∧
    (handleSubmit props st).1.orderType = st.orderType ∧
    (handleSubmit props st).1.priceMarket = st.priceMarket ∧
    (handleSubmit props st).1.currentMarketAskPrecision = st.currentMarketAskPrecision ∧
    (handleSubmit props st).1.currentMarketBidPrecision = st.currentMarketBidPrecision ∧
    (handleSubmit props st).1.amountFocused = st.amountFocused ∧
    (handleSubmit props st).1.priceFocused = st.priceFocused :=
  ⟨rfl, rfl, rfl, rfl, rfl, rfl, rfl, rfl, rfl⟩

/-- C8: every state of the address component reachable by its own
operations keeps at most one file in `fileScan`; the upload handler in
particular stores at most one file, namely the first of the selected
set. -/
theorem fileScan_at_most_one :
    (∀ st : AddressState, AddrReachable st → st.fileScan.length ≤ 1) ∧
    (∀ (files : List FileM) (st : AddressState),
      (handleUploadScan files "fileScan" st).fileScan.length ≤ 1 ∧
      (handleUploadScan files "fileScan" st).fileScan.head? = files.head?) := by
  have hlen : ∀ (files : List FileM) (st : AddressState),
      (handleUploadScan files "fileScan" st).fileScan.length ≤ 1 := by
    intro files st
    rw [handleUploadScan_fileScan]
    simp only [maxDocsCount]
    split
    · exact List.length_take_le 1 files
    · omega
  constructor
  · intro st h
    induction h with
    | init => simp [addressInitialState]
    | step st2 ev _ ih =>
      cases ev with
      | changeAddress v => simpa [addrStep, handleChange] using ih
      | changeCity v => simpa [addrStep, handleChange] using ih
      | changePostcode v => simpa [addrStep, handleChange] using ih
      | focusField f =>
          have : (addrStep (AddrEvent.focusField f) st2).fileScan = st2.fileScan := by
            simp only [addrStep, handleFieldFocus]
            split <;> try rfl
            split <;> try rfl
            split <;> rfl
          rw [this]; exact ih
      | pickCountry code => simpa [addrStep, selectCountry] using ih
      | uploadScan files => exact hlen files st2
      | submit => simpa [addrStep] using ih
  · intro files st
    refine ⟨hlen files st, ?_⟩
    rw [handleUploadScan_fileScan]
    split
    · cases files <;> simp [maxDocsCount]
    · rfl

/-- Witness for C8: the initial state is reachable and satisfies the
bound, and uploading two files stores only the first. -/
theorem fileScan_at_most_one_witness :
    addressInitialState.fileScan.length ≤ 1 ∧
    (handleUploadScan [{ name := "a.png" }, { name := "b.png" }] "fileScan"
      addressInitialState).fileScan.head? = some { name := "a.png" } := by
  constructor
  · exact fileScan_at_most_one.1 addressInitialState AddrReachable.init
  · rw [(fileScan_at_most_one.2 [{ name := "a.png" }, { name := "b.png" }]
      addressInitialState).2]
    rfl

/-- A Limit-type order-form state whose amount string `1-2` is accepted
by the amount regex (digits and dashes) but coerces to NaN. -/
def limitStateNanAmount : OrderFormState :=
  { orderType := "Limit", amount := "1-2", price := "5", priceMarket := 3,
    currentMarketAskPrecision := 6, currentMarketBidPrecision := 6,
    amountFocused := false, priceFocused := false }

/-- Counterexample to C1 as stated: in the Limit state with amount
`1-2` (a string the amount regex accepts) and price `5`, the rendered
total is `(Number(amount) || 0) * (Number(price) || 0) = 0`, whereas
`Number(amount) * Number(price)` is NaN, so the two differ. -/
theorem limitTotal_counterexample :
    limitStateNanAmount.orderType = "Limit" ∧
    matchesAmountCondition limitStateNanAmount.currentMarketAskPrecision
      limitStateNanAmount.amount = true ∧
    renderTotal limitStateNanAmount [] ≠
      jsMul (jsNumber limitStateNanAmount.amount) (jsNumber limitStateNanAmount.price) := by
  refine ⟨rfl, by decide, ?_⟩
  decide

/-- C1 (amended): for a Market order the rendered total is exactly
`getTotalPrice(amount, proposals)` and it is displayed formatted to
the bid precision of the market; for a Limit order the total is
`(Number(amount) || 0) * (Number(price) || 0)`, which coincides with
`Number(amount) * Number(price)` whenever both strings coerce to
numbers (rather than NaN). -/
theorem renderTotal_amended (st : OrderFormState) (proposals : List (ℚ × ℚ)) :
    (st.orderType = "Market" →
      renderTotal st proposals = getTotalPrice st.amount proposals ∧
      displayedTotal st proposals =
        decimalFormat (getTotalPrice st.amount proposals) st.currentMarketBidPrecision) ∧
    (st.orderType = "Limit" →
      renderTotal st proposals =
        jsMul (jsOr (jsNumber st.amount) (JsNum.num 0))
          (jsOr (jsNumber st.price) (JsNum.num 0)) ∧
      ∀ a p : ℚ, jsNumber st.amount = JsNum.num a → jsNumber st.price = JsNum.num p →
        renderTotal st proposals = JsNum.num (a * p)) := by
  constructor
  · intro h
    constructor
    · simp [renderTotal, h]
    · simp [displayedTotal, renderTotal, h]
  · intro h
    have hne : ¬ st.orderType = "Market" := by rw [h]; decide
    have hr : renderTotal st proposals =
        jsMul (jsOr (jsNumber st.amount) (JsNum.num 0))
          (jsOr (jsNumber st.price) (JsNum.num 0)) := by
      simp [renderTotal, safeAmountOf, hne]
    refine ⟨hr, ?_⟩
    intro a p ha hp
    rw [hr, ha, hp, jsOr_num_zero, jsOr_num_zero]
    rfl

/-- Witness for C1 (amended): a Market state displays the formatted
proposal total, and a Limit state with amount `2` and price `5` totals
`2 * 5`. -/
theorem renderTotal_amended_witness :
    displayedTotal
      { orderType := "Market", amount := "2", price := "", priceMarket := 3,
        currentMarketAskPrecision := 6, currentMarketBidPrecision := 6,
        amountFocused := false, priceFocused := false } [(3, 5)] =
      decimalFormat (getTotalPrice "2" [(3, 5)]) 6 ∧
    renderTotal
      { orderType := "Limit", amount := "2", price := "5", priceMarket := 3,
        currentMarketAskPrecision := 6, currentMarketBidPrecision := 6,
        amountFocused := false, priceFocused := false } [] =
      JsNum.num ((2 : ℚ) * 5) := by
  constructor
  · exact ((renderTotal_amended
      { orderType := "Market", amount := "2", price := "", priceMarket := 3,
        currentMarketAskPrecision := 6, currentMarketBidPrecision := 6,
        amountFocused := false, priceFocused := false } [(3, 5)]).1 rfl).2
  · exact ((renderTotal_amended
      { orderType := "Limit", amount := "2", price := "5", priceMarket := 3,
        currentMarketAskPrecision := 6, currentMarketBidPrecision := 6,
        amountFocused := false, priceFocused := false } []).2 rfl).2
      2 5 (by decide) (by decide)

/-- A Market-type order-form state with a nonzero market price, used to
exhibit the numeric price field of a submitted Market order. -/
def marketSubmitState : OrderFormState :=
  { orderType := "Market", amount := "1", price := "", priceMarket := 3,
    currentMarketAskPrecision := 6, currentMarketBidPrecision := 6,
    amountFocused := false, priceFocused := false }

/-- Props accompanying `marketSubmitState`. -/
def marketSubmitProps : OrderFormProps :=
  { priceMarket := 3, priceLimit := none, type := FormType.buy,
    available := some 10, currentMarketAskPrecision := 6,
    currentMarketBidPrecision := 6, disabled := false }

/-- Counterexample to C5 as stated: submitting in a Market state hands
the caller an order whose price field is the numeric `priceMarket`
state value, not a decimal string. -/
theorem orderPrice_counterexample :
    (mkOrder marketSubmitProps marketSubmitState).price = OrderPrice.num 3 ∧
    OrderPrice.isString (mkOrder marketSubmitProps marketSubmitState).price = false := by
  constructor
  · decide
  · decide

/-- C5 (amended): a submitted order has the shape
`(type, orderType, amount, price, available)` with `type` the side
from props, `orderType` and `amount` from state, `available` the
`available || 0` number; its price field is the numeric `priceMarket`
state value for a Market order (not a string) and the price string for
any other order type. -/
theorem order_shape_amended (props : OrderFormProps) (st : OrderFormState) :
    (mkOrder props st).type = props.type ∧
    (mkOrder props st).orderType = st.orderType ∧
    (mkOrder props st).amount = st.amount ∧
    (mkOrder props st).available = optNumOr props.available 0 ∧
    (st.orderType = "Market" →
      (mkOrder props st).price = OrderPrice.num st.priceMarket ∧
      OrderPrice.isString (mkOrder props st).price = false) ∧
    (st.orderType ≠ "Market" →
      (mkOrder props st).price = OrderPrice.str st.price ∧
      OrderPrice.isString (mkOrder props st).price = true) := by
  refine ⟨rfl, rfl, rfl, rfl, ?_, ?_⟩
  · intro h
    simp [mkOrder, h, OrderPrice.isString]
  · intro h
    simp [mkOrder, h, OrderPrice.isString]

/-- Witness for C5 (amended) at a concrete Market submission. -/
theorem order_shape_amended_witness :
    (mkOrder marketSubmitProps marketSubmitState).price = OrderPrice.num 3 ∧
    OrderPrice.isString (mkOrder marketSubmitProps marketSubmitState).price = false := by
  have h := (order_shape_amended marketSubmitProps marketSubmitState).2.2.2.2.1 rfl
  have hpm : marketSubmitState.priceMarket = 3 := rfl
  rw [hpm] at h
  exact h

/-- C10: the displayed unit price is the fallback expression
`totalPrice / Number(amount) || priceMarket`: whenever the quotient is
0 or NaN it falls back to the `priceMarket` state value, and whenever
the quotient is any other value (a nonzero number or an infinity) it
is kept unchanged. -/
theorem safePrice_fallback (tp : JsNum) (amt : String) (pm : ℚ) :
    ((jsDiv tp (jsNumber amt) = JsNum.num 0 ∨ jsDiv tp (jsNumber amt) = JsNum.nan) →
      safePriceCalc tp amt pm = JsNum.num pm) ∧
    (jsDiv tp (jsNumber amt) ≠ JsNum.num 0 → jsDiv tp (jsNumber amt) ≠ JsNum.nan →
      safePriceCalc tp amt pm = jsDiv tp (jsNumber amt)) := by
  unfold safePriceCalc jsOr
  constructor
  · rintro (h | h) <;> rw [h] <;> simp [jsTruthy]
  · intro h0 hn
    have ht : jsTruthy (jsDiv tp (jsNumber amt)) = true := by
      cases hq : jsDiv tp (jsNumber amt) with
      | nan => exact absurd hq hn
      | inf s => simp [jsTruthy]
      | num q =>
          have hq0 : q ≠ 0 := by
            rintro rfl
            exact h0 hq
          simp [jsTruthy, hq0]
    simp [ht]

/-- Witness for C10: with an empty amount the quotient `0 / 0` is NaN
and the unit price falls back to the market price 7; with total 1 and
amount `0` the quotient is Infinity, which is truthy, so no fallback
happens. -/
theorem safePrice_fallback_witness :
    safePriceCalc (JsNum.num 0) "" 7 = JsNum.num 7 ∧
    safePriceCalc (JsNum.num 1) "0" 7 = jsDiv (JsNum.num 1) (jsNumber "0") := by
  constructor
  · exact (safePrice_fallback (JsNum.num 0) "" 7).1 (Or.inr (by decide))
  · exact (safePrice_fallback (JsNum.num 1) "0" 7).2 (by decide) (by decide)
